import Mathlib

/-!
Verification of the calculation engine of `src/main.py` (an interactive
investment / loan-payment calculator).

Modelling conventions (shallow embedding):
* Python machine floats are modelled as rationals (`ℚ`).
* Python exceptions are modelled by `Except PyErr`; `a / b` on floats,
  which raises `ZeroDivisionError` for `b == 0`, is `pydiv`.
* Python `round(x, 2)` (round-half-to-even banker's rounding) is `round2`.
* Console logging (`ConsoleLogger`, the `verbose` flag) is display-only and
  has no effect on any returned value; the `verbose` parameters are kept in
  signatures but are inert.
* The calendar-label collaborator is out of the specified core; the
  amortization engine's month bookkeeping (`get_month_idx` on the
  integer-token path, `get_next_month`, `get_month_year_display`) is
  modelled faithfully, with the display label represented by the
  (month index, year) pair it is rendered from.
-/

set_option linter.unusedVariables false

/-- Python runtime errors raised by the modelled code paths of `main.py`. -/
inductive PyErr where
  /-- `ZeroDivisionError` from a float division by zero. -/
  | zeroDivisionError
  /-- `Exception("Couldn't parse month input: ...")` from `get_month_idx`. -/
  | monthParseError
  /-- `Exception("Invalid month index: ...")` from `get_month_year_display` / `get_next_month`. -/
  | invalidMonthIndex
  /-- `ValueError` from `CalcType(value)` when no enumeration member has that value. -/
  | invalidCalcType
deriving DecidableEq, Repr

/-- Python float division `a / b`: raises `ZeroDivisionError` when `b == 0`. -/
def pydiv (a b : ℚ) : Except PyErr ℚ :=
  if b = 0 then Except.error PyErr.zeroDivisionError else Except.ok (a / b)

/-- Round to the nearest integer, ties to the even neighbour
(the rounding rule of Python's builtin `round`). -/
def roundHalfEven (q : ℚ) : ℤ :=
  if Int.fract q < 1/2 then ⌊q⌋
  else if 1/2 < Int.fract q then ⌊q⌋ + 1
  else if ⌊q⌋ % 2 = 0 then ⌊q⌋ else ⌊q⌋ + 1

/-- Python `round(x, 2)`: round to two decimal places, ties to even. -/
def round2 (q : ℚ) : ℚ := (roundHalfEven (q * 100) : ℚ) / 100

/-- `InvestmentSuggestion` namedtuple (main.py lines 11-18): result of
"how many shares to reach a target balance". -/
structure InvestmentSuggestion where
  SharesToBuy : ℚ
  InvestmentValue : ℚ
  WillReachTargetBalanceAtPrice : ℚ
  CurrentPrice : ℚ
  TargetBalance : ℚ
deriving DecidableEq, Repr

/-- `DEFAULT_INVEST_SUGGESTION` (main.py line 20): the namedtuple built from
its defaults, i.e. every field `-1` — the "not computable" sentinel. -/
def DEFAULT_INVEST_SUGGESTION : InvestmentSuggestion :=
  ⟨-1, -1, -1, -1, -1⟩

/-- `InvestmentValue` namedtuple (main.py line 22): result of
"what is a fixed investment worth after a price move". -/
structure InvestmentValue where
  InitialInvestment : ℚ
  Price : ℚ
  Shares : ℚ
  NextPrice : ℚ
  Value : ℚ
  Profit : ℚ
deriving DecidableEq, Repr

/-- `RemainingMonthlyPayment` namedtuple (main.py lines 38-39): one row of an
amortization schedule.  The display label `month_and_year` is modelled by the
(month index, year) pair the source renders it from. -/
structure RemainingMonthlyPayment where
  payment_number : ℕ
  month_and_year : ℤ × ℤ
  remaining_balance : ℚ
  monthly_payment : ℚ
  balance_after_payment : ℚ
  balance_after_payment_plus_interest : ℚ
deriving DecidableEq, Repr, Inhabited

/-- `get_price_change_rate_from_old_price` (main.py lines 285-286):
`current_price / old_price`, raising `ZeroDivisionError` on `old_price == 0`. -/
def get_price_change_rate_from_old_price (old_price current_price : ℚ) : Except PyErr ℚ :=
  pydiv current_price old_price

/-- `get_suggested_investment_given_target_balance_and_target_price`
(main.py lines 288-295). -/
def get_suggested_investment_given_target_balance_and_target_price
    (current_price target_price target_balance : ℚ) : Except PyErr InvestmentSuggestion :=
  match pydiv target_balance target_price with
  | Except.error e => Except.error e
  | Except.ok shares_to_buy =>
    Except.ok ⟨shares_to_buy, current_price * shares_to_buy, target_price,
               current_price, target_balance⟩

/-- `get_investment_value_when_price_changes` (main.py lines 273-283). -/
def get_investment_value_when_price_changes
    (investment_amount current_price next_price : ℚ) : Except PyErr InvestmentValue :=
  match pydiv investment_amount current_price with
  | Except.error e => Except.error e
  | Except.ok nbr_of_shares =>
    Except.ok ⟨investment_amount, current_price, nbr_of_shares, next_price,
               nbr_of_shares * next_price, nbr_of_shares * next_price - investment_amount⟩

namespace CalcFactory

/-- `CalcFactory.calc_invest_given_previous_growth` (main.py lines 207-220).
The `verbose` branch only logs; it does not change the returned value. -/
def calc_invest_given_previous_growth
    (current_price old_price target_balance : ℚ) (verbose : Bool) :
    Except PyErr InvestmentSuggestion :=
  match get_price_change_rate_from_old_price old_price current_price with
  | Except.error e => Except.error e
  | Except.ok rate_of_change =>
    let next_price := current_price * rate_of_change
    if next_price = 0 then Except.ok DEFAULT_INVEST_SUGGESTION
    else get_suggested_investment_given_target_balance_and_target_price
           current_price next_price target_balance

/-- `CalcFactory.calc_invest_given_target_price` (main.py lines 222-230). -/
def calc_invest_given_target_price
    (current_price target_price target_balance : ℚ) (verbose : Bool) :
    Except PyErr InvestmentSuggestion :=
  if target_price = 0 then Except.ok DEFAULT_INVEST_SUGGESTION
  else get_suggested_investment_given_target_balance_and_target_price
         current_price target_price target_balance

/-- `CalcFactory.calc_invest_for_missed_opportunity` (main.py lines 232-234):
delegates with `current_price := old_price` and `next_price := current_price`. -/
def calc_invest_for_missed_opportunity
    (intended_investment_amount current_price old_price : ℚ) (verbose : Bool) :
    Except PyErr InvestmentValue :=
  get_investment_value_when_price_changes intended_investment_amount old_price current_price

/-- `CalcFactory.calc_invest_potential_investment` (main.py lines 236-239):
a list comprehension mapping `get_investment_value_when_price_changes` over
`next_prices` left to right; the first raised exception propagates. -/
def calc_invest_potential_investment
    (intended_investment_amount current_price : ℚ) (next_prices : List ℚ) (verbose : Bool) :
    Except PyErr (List InvestmentValue) :=
  next_prices.mapM (fun next_price =>
    get_investment_value_when_price_changes intended_investment_amount current_price next_price)

end CalcFactory

namespace GregorianLikeCalendarMonthUtils

/-- `get_month_idx` (main.py lines 48-67) on the integer-token path: the
value is returned when it is a key of `_idx_to_month_abbr` (i.e. in 1..12),
otherwise the trailing `Exception` is raised.  The abbreviation / full-name
string tokens are free-text parsing, an excluded collaborator (spec §1), and
also land in 1..12 when they parse. -/
def get_month_idx (month : ℤ) : Except PyErr ℤ :=
  if 1 ≤ month ∧ month ≤ 12 then Except.ok month
  else Except.error PyErr.monthParseError

/-- `get_month_year_display` (main.py lines 69-73): raises for a month index
outside 1..12; the returned label string is modelled by the
(month index, year) pair it is rendered from. -/
def get_month_year_display (month_idx year : ℤ) : Except PyErr (ℤ × ℤ) :=
  if 1 ≤ month_idx ∧ month_idx ≤ 12 then Except.ok (month_idx, year)
  else Except.error PyErr.invalidMonthIndex

/-- `get_next_month` (main.py lines 75-82): December rolls the year. -/
def get_next_month (month_idx year : ℤ) : Except PyErr (ℤ × ℤ) :=
  if 1 ≤ month_idx ∧ month_idx ≤ 12 then
    (if month_idx = 12 then Except.ok (1, year + 1)
     else Except.ok (month_idx + 1, year))
  else Except.error PyErr.invalidMonthIndex

end GregorianLikeCalendarMonthUtils

namespace CalcFactory

/-- The `while` loop of `calc_constant_monthly_loan_payments`
(main.py lines 250-266), with `fuel = limit - i` so that the recursion is
structurally bounded by the iteration cap.  The boolean of the result models
the `i == limit` cap diagnostic (the `warn` at main.py lines 268-269):
`fuel = 0` is exactly `i == limit`.  Any exception from the calendar helpers
propagates.  Note the source rebinds `monthly_payment` to the possibly
clamped `nxt_monthly_payment` for the next iteration. -/
def loan_payments_loop (fuel : ℕ) (i : ℕ) (month_idx year : ℤ)
    (monthly_payment remaining_balance monthly_apr : ℚ) :
    Except PyErr (List RemainingMonthlyPayment × Bool) :=
  match fuel with
  | 0 => Except.ok ([], true)
  | fuel + 1 =>
    if remaining_balance > 0 then
      let nxt_monthly_payment := min monthly_payment remaining_balance
      let balance_after_payment := remaining_balance - nxt_monthly_payment
      let balance_after_payment_plus_interest :=
        balance_after_payment + balance_after_payment * monthly_apr
      match GregorianLikeCalendarMonthUtils.get_month_year_display month_idx year with
      | Except.error e => Except.error e
      | Except.ok label =>
        match GregorianLikeCalendarMonthUtils.get_next_month month_idx year with
        | Except.error e => Except.error e
        | Except.ok my =>
          match loan_payments_loop fuel (i + 1) my.1 my.2 nxt_monthly_payment
                  balance_after_payment_plus_interest monthly_apr with
          | Except.error e => Except.error e
          | Except.ok rc =>
            Except.ok
              (⟨i + 1, label, round2 remaining_balance, round2 nxt_monthly_payment,
                round2 balance_after_payment,
                round2 balance_after_payment_plus_interest⟩ :: rc.1,
               rc.2)
    else Except.ok ([], false)

/-- `limit = 12*5` (main.py line 249): the hard iteration cap. -/
def limit : ℕ := 12 * 5

/-- `CalcFactory.calc_constant_monthly_loan_payments` (main.py lines 241-271).
Returns the schedule list paired with the cap-reached diagnostic flag. -/
def calc_constant_monthly_loan_payments
    (starting_balance monthly_payment apr : ℚ)
    (starting_month starting_year : ℤ) (verbose : Bool) :
    Except PyErr (List RemainingMonthlyPayment × Bool) :=
  match GregorianLikeCalendarMonthUtils.get_month_idx starting_month with
  | Except.error e => Except.error e
  | Except.ok month_idx =>
    loan_payments_loop limit 0 month_idx starting_year
      monthly_payment starting_balance (apr / 12 / 100)

end CalcFactory

/-- `CalcType` enumeration (main.py lines 172-178). -/
inductive CalcType where
  | PREVIOUS_GROWTH
  | TARGET_PRICE
  | MISSED_INVESTMENT
  | POTENTIAL_INVESTMENT
  | CONSTANT_LOAN_OR_CREDIT_PAYMENT
deriving DecidableEq, Repr

/-- `CalcType(value)` (as called at main.py line 383): the member with that
value, or a `ValueError` when no member has it. -/
def CalcType.ofInt (n : ℤ) : Except PyErr CalcType :=
  if n = 0 then Except.ok CalcType.PREVIOUS_GROWTH
  else if n = 1 then Except.ok CalcType.TARGET_PRICE
  else if n = 2 then Except.ok CalcType.MISSED_INVESTMENT
  else if n = 3 then Except.ok CalcType.POTENTIAL_INVESTMENT
  else if n = 4 then Except.ok CalcType.CONSTANT_LOAN_OR_CREDIT_PAYMENT
  else Except.error PyErr.invalidCalcType

/-- The universe of argument-field names of the `CalcArguments` namedtuple
(main.py lines 24-31), in declaration order. -/
inductive ArgField where
  | current_price
  | old_price
  | target_price
  | target_balance
  | intended_investment_amount
  | next_prices
  | verbose
  | starting_balance
  | monthly_payment
  | apr
  | starting_month
  | starting_year
deriving DecidableEq, Repr

/-- `CalcArguments` namedtuple (main.py line 32): one boolean per field of
`CalcArgFields`, every field defaulting to `False`.  The anonymous
constructor lists the twelve fields in the declaration order above. -/
structure CalcArguments where
  current_price : Bool
  old_price : Bool
  target_price : Bool
  target_balance : Bool
  intended_investment_amount : Bool
  next_prices : Bool
  verbose : Bool
  starting_balance : Bool
  monthly_payment : Bool
  apr : Bool
  starting_month : Bool
  starting_year : Bool
deriving DecidableEq, Repr

/-- The accepted-argument name list of a `CalcArguments` value, as computed at
main.py line 385: `[arg[0] for arg in specs._asdict().items() if arg[1]]`. -/
def CalcArguments.requiredFields (a : CalcArguments) : List ArgField :=
  (if a.current_price then [ArgField.current_price] else [])
  ++ (if a.old_price then [ArgField.old_price] else [])
  ++ (if a.target_price then [ArgField.target_price] else [])
  ++ (if a.target_balance then [ArgField.target_balance] else [])
  ++ (if a.intended_investment_amount then [ArgField.intended_investment_amount] else [])
  ++ (if a.next_prices then [ArgField.next_prices] else [])
  ++ (if a.verbose then [ArgField.verbose] else [])
  ++ (if a.starting_balance then [ArgField.starting_balance] else [])
  ++ (if a.monthly_payment then [ArgField.monthly_payment] else [])
  ++ (if a.apr then [ArgField.apr] else [])
  ++ (if a.starting_month then [ArgField.starting_month] else [])
  ++ (if a.starting_year then [ArgField.starting_year] else [])

/-- References to the five formula functions of `CalcFactory`, as returned by
`get_calc_function` (the Python value is the bound function object itself;
here a tag paired with its formal parameter list, `Formula.formalParams`). -/
inductive Formula where
  | calc_invest_given_previous_growth
  | calc_invest_given_target_price
  | calc_invest_for_missed_opportunity
  | calc_invest_potential_investment
  | calc_constant_monthly_loan_payments
deriving DecidableEq, Repr

/-- The formal parameter list of each formula function, transcribed from the
`def` signatures in main.py (lines 208, 223, 233, 236, 242). -/
def Formula.formalParams : Formula → List ArgField
  | Formula.calc_invest_given_previous_growth =>
      [ArgField.current_price, ArgField.old_price, ArgField.target_balance, ArgField.verbose]
  | Formula.calc_invest_given_target_price =>
      [ArgField.current_price, ArgField.target_price, ArgField.target_balance, ArgField.verbose]
  | Formula.calc_invest_for_missed_opportunity =>
      [ArgField.intended_investment_amount, ArgField.current_price, ArgField.old_price,
       ArgField.verbose]
  | Formula.calc_invest_potential_investment =>
      [ArgField.intended_investment_amount, ArgField.current_price, ArgField.next_prices,
       ArgField.verbose]
  | Formula.calc_constant_monthly_loan_payments =>
      [ArgField.starting_balance, ArgField.monthly_payment, ArgField.apr,
       ArgField.starting_month, ArgField.starting_year, ArgField.verbose]

/-- `CalcFactory.get_calc_function` (main.py lines 180-204).  The if/elif
chain covers all five enumeration members, so for a genuine `CalcType` it
always returns a pair; the `CalcArguments` literals below set exactly the
keyword arguments the source passes as `True`, in field order (the
remaining fields keep the namedtuple default `False`). -/
def get_calc_function (case : CalcType) : Formula × CalcArguments :=
  match case with
  | CalcType.PREVIOUS_GROWTH =>
      (Formula.calc_invest_given_previous_growth,
       ⟨true, true, false, true, false, false, true, false, false, false, false, false⟩)
  | CalcType.TARGET_PRICE =>
      (Formula.calc_invest_given_target_price,
       ⟨true, false, true, true, false, false, true, false, false, false, false, false⟩)
  | CalcType.MISSED_INVESTMENT =>
      (Formula.calc_invest_for_missed_opportunity,
       ⟨true, true, false, false, true, false, true, false, false, false, false, false⟩)
  | CalcType.POTENTIAL_INVESTMENT =>
      (Formula.calc_invest_potential_investment,
       ⟨true, false, false, false, true, true, true, false, false, false, false, false⟩)
  | CalcType.CONSTANT_LOAN_OR_CREDIT_PAYMENT =>
      (Formula.calc_constant_monthly_loan_payments,
       ⟨false, false, false, false, false, false, true, true, true, true, true, true⟩)

/-- The registry lookup as the program performs it on a raw kind value
(main.py line 383): `CalcType(input_value)` — which raises `ValueError` for a
value outside the enumeration — followed by `CalcFactory.get_calc_function`. -/
def select_scenario (n : ℤ) : Except PyErr (Formula × CalcArguments) :=
  match CalcType.ofInt n with
  | Except.error e => Except.error e
  | Except.ok case => Except.ok (get_calc_function case)

theorem round2_zero : round2 0 = 0 := by
  with_unfolding_all rfl

theorem roundHalfEven_mono {x y : ℚ} (h : x ≤ y) : roundHalfEven x ≤ roundHalfEven y := by
  have hf : ⌊x⌋ ≤ ⌊y⌋ := Int.floor_mono h
  rcases eq_or_lt_of_le hf with hef | hlt
  · have hfr : Int.fract x ≤ Int.fract y := by
      unfold Int.fract
      rw [hef]
      linarith
    unfold roundHalfEven
    rw [← hef]
    split_ifs <;> first | omega | linarith
  · unfold roundHalfEven
    split_ifs <;> omega

theorem round2_mono {x y : ℚ} (h : x ≤ y) : round2 x ≤ round2 y := by
  unfold round2
  have h1 : x * 100 ≤ y * 100 := by linarith
  have h2 : ((roundHalfEven (x * 100) : ℤ) : ℚ) ≤ ((roundHalfEven (y * 100) : ℤ) : ℚ) := by
    exact_mod_cast roundHalfEven_mono h1
  linarith

/-- One-step inversion for `loan_payments_loop` on a successful result: either
the fuel (iteration cap) is exhausted, or the balance is not positive, or a
first row is emitted and the loop recurses on the post-interest balance. -/
theorem loan_payments_loop_ok_inversion
    (fuel i : ℕ) (m y : ℤ) (mp rb r : ℚ)
    (rows : List RemainingMonthlyPayment) (c : Bool)
    (h : CalcFactory.loan_payments_loop fuel i m y mp rb r = Except.ok (rows, c)) :
    (fuel = 0 ∧ rows = [] ∧ c = true)
    ∨ (0 < fuel ∧ ¬rb > 0 ∧ rows = [] ∧ c = false)
    ∨ (∃ fuel2, fuel = fuel2 + 1 ∧ rb > 0 ∧ 1 ≤ m ∧ m ≤ 12 ∧
        ∃ rest,
          CalcFactory.loan_payments_loop fuel2 (i + 1)
              (if m = 12 then 1 else m + 1) (if m = 12 then y + 1 else y)
              (min mp rb) ((rb - min mp rb) + (rb - min mp rb) * r) r
            = Except.ok (rest, c)
          ∧ rows = ⟨i + 1, (m, y), round2 rb, round2 (min mp rb),
                    round2 (rb - min mp rb),
                    round2 ((rb - min mp rb) + (rb - min mp rb) * r)⟩ :: rest) := by
  cases fuel with
  | zero =>
    left
    simp only [CalcFactory.loan_payments_loop, Except.ok.injEq, Prod.mk.injEq] at h
    exact ⟨rfl, h.1.symm, h.2.symm⟩
  | succ fuel2 =>
    simp only [CalcFactory.loan_payments_loop] at h
    by_cases hrb : rb > 0
    · rw [if_pos hrb] at h
      by_cases hm : 1 ≤ m ∧ m ≤ 12
      · have hd : GregorianLikeCalendarMonthUtils.get_month_year_display m y
            = Except.ok (m, y) := by
          simp [GregorianLikeCalendarMonthUtils.get_month_year_display, hm.1, hm.2]
        have hn : GregorianLikeCalendarMonthUtils.get_next_month m y
            = Except.ok (if m = 12 then (1, y + 1) else (m + 1, y)) := by
          by_cases h12 : m = 12 <;>
            simp [GregorianLikeCalendarMonthUtils.get_next_month, hm.1, hm.2, h12]
        rw [hd, hn] at h
        have hmy1 : (if m = 12 then ((1 : ℤ), y + 1) else (m + 1, y)).1
            = (if m = 12 then 1 else m + 1) := by
          by_cases h12 : m = 12 <;> simp [h12]
        have hmy2 : (if m = 12 then ((1 : ℤ), y + 1) else (m + 1, y)).2
            = (if m = 12 then y + 1 else y) := by
          by_cases h12 : m = 12 <;> simp [h12]
        simp only [hmy1, hmy2] at h
        cases hE : CalcFactory.loan_payments_loop fuel2 (i + 1)
            (if m = 12 then 1 else m + 1) (if m = 12 then y + 1 else y)
            (min mp rb) ((rb - min mp rb) + (rb - min mp rb) * r) r with
        | error e =>
          rw [hE] at h
          simp at h
        | ok rc =>
          rw [hE] at h
          simp only [Except.ok.injEq, Prod.mk.injEq] at h
          right; right
          refine ⟨fuel2, rfl, hrb, hm.1, hm.2, rc.1, ?_, ?_⟩
          · rw [hE, ← h.2]
          · rw [← h.1]
      · have hd : GregorianLikeCalendarMonthUtils.get_month_year_display m y
            = Except.error PyErr.invalidMonthIndex := by
          simp only [GregorianLikeCalendarMonthUtils.get_month_year_display, if_neg hm]
        rw [hd] at h
        simp at h
    · rw [if_neg hrb] at h
      simp only [Except.ok.injEq, Prod.mk.injEq] at h
      exact Or.inr (Or.inl ⟨Nat.succ_pos _, hrb, h.1.symm, h.2.symm⟩)

/-- Inversion for `calc_constant_monthly_loan_payments` on a successful
result: the parsed starting month is in 1..12 and the result is that of the
loop started at the full cap. -/
theorem calc_constant_ok_inversion
    (sb mp apr : ℚ) (m y : ℤ) (vb : Bool)
    (rows : List RemainingMonthlyPayment) (c : Bool)
    (h : CalcFactory.calc_constant_monthly_loan_payments sb mp apr m y vb
        = Except.ok (rows, c)) :
    (1 ≤ m ∧ m ≤ 12)
    ∧ CalcFactory.loan_payments_loop CalcFactory.limit 0 m y mp sb (apr / 12 / 100)
        = Except.ok (rows, c) := by
  simp only [CalcFactory.calc_constant_monthly_loan_payments] at h
  by_cases hm : 1 ≤ m ∧ m ≤ 12
  · have hg : GregorianLikeCalendarMonthUtils.get_month_idx m = Except.ok m := by
      simp [GregorianLikeCalendarMonthUtils.get_month_idx, hm.1, hm.2]
    rw [hg] at h
    exact ⟨hm, h⟩
  · have hg : GregorianLikeCalendarMonthUtils.get_month_idx m
        = Except.error PyErr.monthParseError := by
      simp only [GregorianLikeCalendarMonthUtils.get_month_idx, if_neg hm]
    rw [hg] at h
    simp at h

/-- The schedule produced by the loop has at most `fuel` rows. -/
theorem loan_payments_loop_length_le
    (fuel : ℕ) :
    ∀ (i : ℕ) (m y : ℤ) (mp rb r : ℚ) (rows : List RemainingMonthlyPayment) (c : Bool),
      CalcFactory.loan_payments_loop fuel i m y mp rb r = Except.ok (rows, c) →
      rows.length ≤ fuel := by
  induction fuel with
  | zero =>
    intro i m y mp rb r rows c h
    rcases loan_payments_loop_ok_inversion 0 i m y mp rb r rows c h with
      ⟨_, hrows, _⟩ | ⟨hf, _⟩ | ⟨fuel2, hf, _⟩
    · simp [hrows]
    · omega
    · omega
  | succ fuel2 ih =>
    intro i m y mp rb r rows c h
    rcases loan_payments_loop_ok_inversion (fuel2 + 1) i m y mp rb r rows c h with
      ⟨hf, _⟩ | ⟨_, _, hrows, _⟩ | ⟨fuel3, hf, hrb, hm1, hm2, rest, hrec, hrows⟩
    · omega
    · simp [hrows]
    · have hf3 : fuel3 = fuel2 := by omega
      subst hf3
      have := ih _ _ _ _ _ _ _ _ hrec
      simp [hrows]
      omega

/-- The first row of a loop result records the rounded incoming balance. -/
theorem loan_payments_loop_head_rb
    (fuel i : ℕ) (m y : ℤ) (mp rb r : ℚ)
    (row : RemainingMonthlyPayment) (rest : List RemainingMonthlyPayment) (c : Bool)
    (h : CalcFactory.loan_payments_loop fuel i m y mp rb r = Except.ok (row :: rest, c)) :
    row.remaining_balance = round2 rb := by
  rcases loan_payments_loop_ok_inversion fuel i m y mp rb r (row :: rest) c h with
    ⟨_, hrows, _⟩ | ⟨_, _, hrows, _⟩ | ⟨fuel2, _, _, _, _, rest2, _, hrows⟩
  · simp at hrows
  · simp at hrows
  · injection hrows with h1 h2
    rw [h1]

/-- Consecutive-row chaining: in any successful loop result, row `j`'s
`balance_after_payment_plus_interest` equals row `j+1`'s `remaining_balance`
(both are the two-decimal rounding of the same carried balance). -/
theorem loan_payments_loop_chain
    (fuel : ℕ) :
    ∀ (i : ℕ) (m y : ℤ) (mp rb r : ℚ) (rows : List RemainingMonthlyPayment) (c : Bool),
      CalcFactory.loan_payments_loop fuel i m y mp rb r = Except.ok (rows, c) →
      ∀ j, j + 1 < rows.length →
        (rows.getD j default).balance_after_payment_plus_interest
          = (rows.getD (j + 1) default).remaining_balance := by
  induction fuel with
  | zero =>
    intro i m y mp rb r rows c h j hj
    rcases loan_payments_loop_ok_inversion 0 i m y mp rb r rows c h with
      ⟨_, hrows, _⟩ | ⟨hf, _⟩ | ⟨fuel2, hf, _⟩
    · subst hrows; simp at hj
    · omega
    · omega
  | succ f ih =>
    intro i m y mp rb r rows c h j hj
    rcases loan_payments_loop_ok_inversion (f + 1) i m y mp rb r rows c h with
      ⟨hf, _⟩ | ⟨_, _, hrows, _⟩ | ⟨f2, hf, hrb, hm1, hm2, rest, hrec, hrows⟩
    · omega
    · subst hrows; simp at hj
    · have hf2 : f2 = f := by omega
      subst hf2
      subst hrows
      cases j with
      | zero =>
        cases rest with
        | nil => simp at hj
        | cons row2 rest2 =>
          have hhead := loan_payments_loop_head_rb _ _ _ _ _ _ _ _ _ _ hrec
          simp only [List.getD_cons_zero, List.getD_cons_succ]
          rw [hhead]
      | succ j2 =>
        simp only [List.getD_cons_succ]
        refine ih _ _ _ _ _ _ _ _ hrec j2 ?_
        simpa using hj

/-- Conditional monotonicity: starting from a balance at most `S`, with a
nonnegative monthly rate whose interest on `S - mp` never exceeds the payment
`mp`, the recorded remaining balances never increase from one row to the
next. -/
theorem loan_payments_loop_monotone
    (fuel : ℕ) :
    ∀ (i : ℕ) (m y : ℤ) (mp rb r S : ℚ) (rows : List RemainingMonthlyPayment) (c : Bool),
      0 ≤ r → rb ≤ S → (S - mp) * r ≤ mp →
      CalcFactory.loan_payments_loop fuel i m y mp rb r = Except.ok (rows, c) →
      ∀ j, j + 1 < rows.length →
        (rows.getD (j + 1) default).remaining_balance
          ≤ (rows.getD j default).remaining_balance := by
  induction fuel with
  | zero =>
    intro i m y mp rb r S rows c hr hS hSm h j hj
    rcases loan_payments_loop_ok_inversion 0 i m y mp rb r rows c h with
      ⟨_, hrows, _⟩ | ⟨hf, _⟩ | ⟨fuel2, hf, _⟩
    · subst hrows; simp at hj
    · omega
    · omega
  | succ f ih =>
    intro i m y mp rb r S rows c hr hS hSm h j hj
    rcases loan_payments_loop_ok_inversion (f + 1) i m y mp rb r rows c h with
      ⟨hf, _⟩ | ⟨_, _, hrows, _⟩ | ⟨f2, hf, hrb, hm1, hm2, rest, hrec, hrows⟩
    · omega
    · subst hrows; simp at hj
    · have hf2 : f2 = f := by omega
      subst hf2
      subst hrows
      rcases le_total mp rb with hle | hle
      · have hmin : min mp rb = mp := min_eq_left hle
        have haux : (rb - mp) * r ≤ (S - mp) * r :=
          mul_le_mul_of_nonneg_right (by linarith) hr
        have hrb2 : (rb - min mp rb) + (rb - min mp rb) * r ≤ rb := by
          rw [hmin]; linarith
        have hrb2S : (rb - min mp rb) + (rb - min mp rb) * r ≤ S := le_trans hrb2 hS
        cases j with
        | zero =>
          cases rest with
          | nil => simp at hj
          | cons row2 rest2 =>
            have hhead := loan_payments_loop_head_rb _ _ _ _ _ _ _ _ _ _ hrec
            simp only [List.getD_cons_zero, List.getD_cons_succ]
            rw [hhead]
            exact round2_mono hrb2
        | succ j2 =>
          simp only [List.getD_cons_succ]
          refine ih _ _ _ _ _ _ _ _ _ hr hrb2S ?_ hrec j2 ?_
          · rw [hmin]; exact hSm
          · simpa using hj
      · have hmin : min mp rb = rb := min_eq_right hle
        have hrb2 : (rb - min mp rb) + (rb - min mp rb) * r = 0 := by
          rw [hmin]; ring
        rcases loan_payments_loop_ok_inversion _ (i + 1) _ _ _ _ _ rest c hrec with
          ⟨_, hrest, _⟩ | ⟨_, _, hrest, _⟩ | ⟨f3, _, hrb2pos, _⟩
        · subst hrest; simp at hj
        · subst hrest; simp at hj
        · rw [hrb2] at hrb2pos
          exact absurd hrb2pos (lt_irrefl 0)

/-- If the loop stops before exhausting its fuel (cap flag `false`), the last
row's post-payment balance and post-interest balance are exactly zero. -/
theorem loan_payments_loop_last_zero
    (fuel : ℕ) :
    ∀ (i : ℕ) (m y : ℤ) (mp rb r : ℚ) (rows : List RemainingMonthlyPayment)
      (last : RemainingMonthlyPayment),
      0 ≤ r →
      CalcFactory.loan_payments_loop fuel i m y mp rb r = Except.ok (rows, false) →
      rows.getLast? = some last →
      last.balance_after_payment = 0 ∧ last.balance_after_payment_plus_interest = 0 := by
  induction fuel with
  | zero =>
    intro i m y mp rb r rows last hr h hlast
    rcases loan_payments_loop_ok_inversion 0 i m y mp rb r rows false h with
      ⟨_, _, hc⟩ | ⟨hf, _⟩ | ⟨fuel2, hf, _⟩
    · exact absurd hc (by simp)
    · omega
    · omega
  | succ f ih =>
    intro i m y mp rb r rows last hr h hlast
    rcases loan_payments_loop_ok_inversion (f + 1) i m y mp rb r rows false h with
      ⟨hf, _⟩ | ⟨_, _, hrows, _⟩ | ⟨f2, hf, hrb, hm1, hm2, rest, hrec, hrows⟩
    · omega
    · subst hrows; simp at hlast
    · have hf2 : f2 = f := by omega
      subst hf2
      subst hrows
      cases rest with
      | nil =>
        have hlast2 : last
            = (⟨i + 1, (m, y), round2 rb, round2 (min mp rb),
               round2 (rb - min mp rb),
               round2 ((rb - min mp rb) + (rb - min mp rb) * r)⟩
               : RemainingMonthlyPayment) := by
          simpa using hlast.symm
        rcases loan_payments_loop_ok_inversion _ (i + 1) _ _ _ _ _ [] false hrec with
          ⟨_, _, hc⟩ | ⟨_, hnp, _⟩ | ⟨f3, _, _, _, _, rest2, _, hrest⟩
        · exact absurd hc (by simp)
        · have hbapnn : 0 ≤ rb - min mp rb := sub_nonneg.mpr (min_le_right mp rb)
          have hmul : 0 ≤ (rb - min mp rb) * r := mul_nonneg hbapnn hr
          have hle0 : (rb - min mp rb) + (rb - min mp rb) * r ≤ 0 := by
            push_neg at hnp
            exact hnp
          have hbap0 : rb - min mp rb = 0 := by linarith
          rw [hlast2]
          constructor
          · simp only [hbap0, round2_zero]
          · simp only [hbap0, zero_mul, add_zero, round2_zero]
        · simp at hrest
      | cons row2 rest2 =>
        have hlast2 : (row2 :: rest2).getLast? = some last := by
          rw [← hlast]
          exact List.getLast?_cons_cons.symm
        exact ih _ _ _ _ _ _ _ _ hr hrec hlast2

/-- Claim C1: for every scenario kind, the set of required-input field names
returned by the registry lookup, minus `verbose`, exactly equals the set of
formal parameters (other than `verbose`) of the formula function the lookup
pairs it with. -/
theorem schema_matches_formula_params :
    ∀ case : CalcType,
      (((get_calc_function case).2.requiredFields.filter
          (fun f => f ≠ ArgField.verbose)).toFinset : Finset ArgField)
        = ((get_calc_function case).1.formalParams.filter
            (fun f => f ≠ ArgField.verbose)).toFinset := by
  intro case
  cases case <;> decide

/-- Claim C3: for every value that is not one of the five enumerated scenario
kinds, the registry lookup fails with the invalid-scenario condition (the
`ValueError` raised by `CalcType(value)`) rather than returning a formula. -/
theorem unknown_scenario_lookup_fails
    (n : ℤ) (h : ¬(n = 0 ∨ n = 1 ∨ n = 2 ∨ n = 3 ∨ n = 4)) :
    select_scenario n = Except.error PyErr.invalidCalcType := by
  push_neg at h
  obtain ⟨h0, h1, h2, h3, h4⟩ := h
  simp [select_scenario, CalcType.ofInt, h0, h1, h2, h3, h4]

/-- Witness for C3 at the concrete unknown kind value 7. -/
theorem unknown_scenario_lookup_fails_witness :
    ¬((7 : ℤ) = 0 ∨ (7 : ℤ) = 1 ∨ (7 : ℤ) = 2 ∨ (7 : ℤ) = 3 ∨ (7 : ℤ) = 4)
    ∧ select_scenario 7 = Except.error PyErr.invalidCalcType :=
  ⟨by decide, unknown_scenario_lookup_fails 7 (by decide)⟩

/-- Claim C7: for every currentPrice and targetBalance,
`calc_invest_given_target_price` with `targetPrice == 0` returns the sentinel
`InvestmentSuggestion` whose fields are all `-1`, and never raises. -/
theorem target_price_zero_returns_sentinel :
    ∀ (cp tb : ℚ) (vb : Bool),
      CalcFactory.calc_invest_given_target_price cp 0 tb vb
        = Except.ok DEFAULT_INVEST_SUGGESTION
      ∧ DEFAULT_INVEST_SUGGESTION = ⟨-1, -1, -1, -1, -1⟩ := by
  intro cp tb vb
  exact ⟨rfl, rfl⟩

/-- Claim C8: for currentPrice = oldPrice > 0, `calc_invest_given_previous_growth`
computes `rate_of_change == 1`, projects `next_price == current_price`
(the second conjunct applies the projection `current_price * rate` to the
computed rate), and returns exactly the result of
`calc_invest_given_target_price(current_price, current_price, target_balance)`. -/
theorem prev_growth_eq_target_price_when_equal
    (cp tb : ℚ) (vb vb2 : Bool) (h : 0 < cp) :
    get_price_change_rate_from_old_price cp cp = Except.ok 1
    ∧ (get_price_change_rate_from_old_price cp cp).map (fun rate => cp * rate)
        = Except.ok cp
    ∧ CalcFactory.calc_invest_given_previous_growth cp cp tb vb
        = CalcFactory.calc_invest_given_target_price cp cp tb vb2 := by
  have hne : cp ≠ 0 := h.ne'
  refine ⟨?_, ?_, ?_⟩
  · simp [get_price_change_rate_from_old_price, pydiv, hne, div_self]
  · simp [get_price_change_rate_from_old_price, pydiv, hne, div_self, Except.map]
  · simp [CalcFactory.calc_invest_given_previous_growth,
      CalcFactory.calc_invest_given_target_price,
      get_price_change_rate_from_old_price, pydiv, hne, div_self]

/-- Witness for C8 at currentPrice = oldPrice = 2, targetBalance = 10. -/
theorem prev_growth_eq_target_price_when_equal_witness :
    (0 : ℚ) < 2
    ∧ (get_price_change_rate_from_old_price 2 2 = Except.ok 1
       ∧ (get_price_change_rate_from_old_price 2 2).map (fun rate => 2 * rate)
           = Except.ok 2
       ∧ CalcFactory.calc_invest_given_previous_growth 2 2 10 false
           = CalcFactory.calc_invest_given_target_price 2 2 10 true) :=
  ⟨by norm_num, prev_growth_eq_target_price_when_equal 2 10 false true (by norm_num)⟩

/-- Counterexample to claim C9 as stated: with the empty `next_prices`
sequence and `currentPrice == 0`, `calc_invest_potential_investment` does not
fail — the comprehension body never runs, so the result is the empty list,
not a `ZeroDivisionError`. -/
theorem potential_investment_empty_returns_ok :
    CalcFactory.calc_invest_potential_investment 5 0 [] false = Except.ok [] := by
  rfl

/-- Claim C9 (amended): with `currentPrice == 0`,
`calc_invest_potential_investment` returns the empty list on the empty
`next_prices` sequence and fails with `ZeroDivisionError` on every nonempty
sequence. -/
theorem potential_investment_zero_price
    (amt : ℚ) (ps : List ℚ) (vb : Bool) :
    (ps = [] →
      CalcFactory.calc_invest_potential_investment amt 0 ps vb = Except.ok [])
    ∧ (ps ≠ [] →
      CalcFactory.calc_invest_potential_investment amt 0 ps vb
        = Except.error PyErr.zeroDivisionError) := by
  constructor
  · intro hps
    subst hps
    rfl
  · intro hps
    cases ps with
    | nil => exact absurd rfl hps
    | cons p t =>
      simp [CalcFactory.calc_invest_potential_investment, List.mapM, List.mapM.loop,
        get_investment_value_when_price_changes, pydiv, Bind.bind, Except.bind]

/-- Witness for the amended C9 at amount 5, prices `[3]`. -/
theorem potential_investment_zero_price_witness :
    (([(3 : ℚ)] : List ℚ) = [] →
      CalcFactory.calc_invest_potential_investment 5 0 [3] false = Except.ok [])
    ∧ (([(3 : ℚ)] : List ℚ) ≠ [] →
      CalcFactory.calc_invest_potential_investment 5 0 [3] false
        = Except.error PyErr.zeroDivisionError) :=
  potential_investment_zero_price 5 [3] false

/-- Claim C6: for every currentPrice, targetBalance and
intendedInvestmentAmount, when `oldPrice == 0` both
`calc_invest_given_previous_growth` and `calc_invest_for_missed_opportunity`
raise `ZeroDivisionError` (no sentinel value is returned): the error is the
value of the call, i.e. it propagates to the caller. -/
theorem old_price_zero_raises_divide_by_zero :
    ∀ (cp tb amt : ℚ) (vb vb2 : Bool),
      CalcFactory.calc_invest_given_previous_growth cp 0 tb vb
        = Except.error PyErr.zeroDivisionError
      ∧ CalcFactory.calc_invest_for_missed_opportunity amt cp 0 vb2
        = Except.error PyErr.zeroDivisionError := by
  intro cp tb amt vb vb2
  constructor
  · simp [CalcFactory.calc_invest_given_previous_growth,
      get_price_change_rate_from_old_price, pydiv]
  · simp [CalcFactory.calc_invest_for_missed_opportunity,
      get_investment_value_when_price_changes, pydiv]

/-- Claim C4: for every startingBalance, monthlyPayment and apr, the
amortization calculation terminates (the loop is structurally bounded by the
fixed fuel `limit`) and any schedule it returns has at most 60 rows. -/
theorem loan_schedule_length_le_cap
    (sb mp apr : ℚ) (m y : ℤ) (vb : Bool)
    (rows : List RemainingMonthlyPayment) (c : Bool)
    (hok : CalcFactory.calc_constant_monthly_loan_payments sb mp apr m y vb
        = Except.ok (rows, c)) :
    rows.length ≤ 60 := by
  obtain ⟨hm, hloop⟩ := calc_constant_ok_inversion sb mp apr m y vb rows c hok
  have h := loan_payments_loop_length_le CalcFactory.limit 0 m y mp sb
    (apr / 12 / 100) rows c hloop
  simpa [CalcFactory.limit] using h

/-- Witness for C4 on the concrete schedule for balance 2, payment 1, apr 0. -/
theorem loan_schedule_length_le_cap_witness :
    CalcFactory.calc_constant_monthly_loan_payments 2 1 0 1 2024 false
      = Except.ok ([⟨1, (1, 2024), 2, 1, 1, 1⟩, ⟨2, (2, 2024), 1, 1, 0, 0⟩], false)
    ∧ ([(⟨1, (1, 2024), 2, 1, 1, 1⟩ : RemainingMonthlyPayment),
        ⟨2, (2, 2024), 1, 1, 0, 0⟩] : List RemainingMonthlyPayment).length ≤ 60 :=
  ⟨by with_unfolding_all rfl,
   loan_schedule_length_le_cap 2 1 0 1 2024 false
     [⟨1, (1, 2024), 2, 1, 1, 1⟩, ⟨2, (2, 2024), 1, 1, 0, 0⟩] false
     (by with_unfolding_all rfl)⟩

/-- Claim C5: `calc_constant_monthly_loan_payments` with startingBalance
1000000, monthlyPayment 1, apr 0 returns normally (no error) with exactly 60
rows, the cap-reached diagnostic set, and a final row whose balance (both the
recorded remaining balance and the balance carried forward) is still
positive. -/
theorem loan_cap_example :
    (CalcFactory.calc_constant_monthly_loan_payments 1000000 1 0 1 2024 false).map
        (fun rc => (rc.1.length, rc.2,
          rc.1.getLast?.map (fun row =>
            (row.remaining_balance, row.balance_after_payment_plus_interest))))
      = Except.ok (60, true, some (999941, 999940))
    ∧ (0 : ℚ) < 999941 ∧ (0 : ℚ) < 999940 := by
  refine ⟨by with_unfolding_all rfl, by norm_num, by norm_num⟩

/-- Counterexample to claim C2 as stated: with startingBalance 100,
monthlyPayment 1 and apr 1200 (monthly rate 1), the recorded remaining
balance rises from 100 in row 1 to 198 in row 2 — before either terminal
condition — so the remaining-balance sequence is not monotonically
non-increasing for every input. -/
theorem loan_monotonicity_counterexample :
    (CalcFactory.calc_constant_monthly_loan_payments 100 1 1200 1 2024 false).map
        (fun rc => ((rc.1.getD 0 default).remaining_balance,
          (rc.1.getD 1 default).remaining_balance, rc.1.length))
      = Except.ok (100, 198, 60)
    ∧ ¬((198 : ℚ) ≤ 100) := by
  refine ⟨by with_unfolding_all rfl, by norm_num⟩

/-- Claim C2 (amended): in every returned schedule, row `j`'s
`balance_after_payment_plus_interest` equals row `j+1`'s `remaining_balance`
(consecutive-row chaining, unconditional); and the remaining-balance sequence
is monotonically non-increasing provided the apr is nonnegative, the payment
is positive, and one month's interest on `startingBalance - monthlyPayment`
does not exceed the monthly payment. -/
theorem loan_chain_and_conditional_monotone
    (sb mp apr : ℚ) (m y : ℤ) (vb : Bool)
    (rows : List RemainingMonthlyPayment) (c : Bool) (j : ℕ)
    (hok : CalcFactory.calc_constant_monthly_loan_payments sb mp apr m y vb
        = Except.ok (rows, c))
    (hj : j + 1 < rows.length) :
    (rows.getD j default).balance_after_payment_plus_interest
      = (rows.getD (j + 1) default).remaining_balance
    ∧ (0 ≤ apr → 0 < mp → (sb - mp) * (apr / 12 / 100) ≤ mp →
        (rows.getD (j + 1) default).remaining_balance
          ≤ (rows.getD j default).remaining_balance) := by
  obtain ⟨hm, hloop⟩ := calc_constant_ok_inversion sb mp apr m y vb rows c hok
  constructor
  · exact loan_payments_loop_chain CalcFactory.limit 0 m y mp sb
      (apr / 12 / 100) rows c hloop j hj
  · intro hapr hmp hint
    have hr : 0 ≤ apr / 12 / 100 := by positivity
    exact loan_payments_loop_monotone CalcFactory.limit 0 m y mp sb
      (apr / 12 / 100) sb rows c hr le_rfl hint hloop j hj

/-- Witness for the amended C2 on the concrete schedule for balance 2,
payment 1, apr 0, at row pair (0, 1). -/
theorem loan_chain_and_conditional_monotone_witness :
    CalcFactory.calc_constant_monthly_loan_payments 2 1 0 1 2024 false
      = Except.ok ([⟨1, (1, 2024), 2, 1, 1, 1⟩, ⟨2, (2, 2024), 1, 1, 0, 0⟩], false)
    ∧ (0 : ℕ) + 1 < ([(⟨1, (1, 2024), 2, 1, 1, 1⟩ : RemainingMonthlyPayment),
        ⟨2, (2, 2024), 1, 1, 0, 0⟩] : List RemainingMonthlyPayment).length
    ∧ ((([(⟨1, (1, 2024), 2, 1, 1, 1⟩ : RemainingMonthlyPayment),
          ⟨2, (2, 2024), 1, 1, 0, 0⟩].getD 0 default).balance_after_payment_plus_interest
        = ([(⟨1, (1, 2024), 2, 1, 1, 1⟩ : RemainingMonthlyPayment),
          ⟨2, (2, 2024), 1, 1, 0, 0⟩].getD (0 + 1) default).remaining_balance)
      ∧ ((0 : ℚ) ≤ 0 → (0 : ℚ) < 1 → ((2 : ℚ) - 1) * (0 / 12 / 100) ≤ 1 →
        ([(⟨1, (1, 2024), 2, 1, 1, 1⟩ : RemainingMonthlyPayment),
          ⟨2, (2, 2024), 1, 1, 0, 0⟩].getD (0 + 1) default).remaining_balance
          ≤ ([(⟨1, (1, 2024), 2, 1, 1, 1⟩ : RemainingMonthlyPayment),
            ⟨2, (2, 2024), 1, 1, 0, 0⟩].getD 0 default).remaining_balance)) :=
  ⟨by with_unfolding_all rfl, by norm_num,
   loan_chain_and_conditional_monotone 2 1 0 1 2024 false
     [⟨1, (1, 2024), 2, 1, 1, 1⟩, ⟨2, (2, 2024), 1, 1, 0, 0⟩] false 0
     (by with_unfolding_all rfl) (by norm_num)⟩

/-- Claim C10: (a) whenever an iteration of the amortization loop clamps the
payment (remaining balance strictly below the monthly payment), that
iteration's row records `balance_after_payment = 0` and
`balance_after_payment_plus_interest = 0` and is the only remaining row, so
the clamp fires at most once and ends the schedule; (b) with a nonnegative
apr, any schedule that terminates before the cap (diagnostic flag `false`)
ends with both final balances exactly zero — never negative. -/
theorem clamped_payment_is_final_and_zero :
    (∀ (fuel i : ℕ) (m y : ℤ) (mp rb r : ℚ),
      1 ≤ m → m ≤ 12 → 0 < rb → rb < mp →
      CalcFactory.loan_payments_loop (fuel + 1) i m y mp rb r
        = Except.ok ([⟨i + 1, (m, y), round2 rb, round2 rb, 0, 0⟩], fuel == 0))
    ∧ (∀ (sb mp apr : ℚ) (m y : ℤ) (vb : Bool)
        (rows : List RemainingMonthlyPayment) (last : RemainingMonthlyPayment),
      0 < sb → 0 < mp → 0 ≤ apr →
      CalcFactory.calc_constant_monthly_loan_payments sb mp apr m y vb
        = Except.ok (rows, false) →
      rows.getLast? = some last →
      last.balance_after_payment = 0
        ∧ last.balance_after_payment_plus_interest = 0) := by
  constructor
  · intro fuel i m y mp rb r hm1 hm2 hrb hlt
    have hd : GregorianLikeCalendarMonthUtils.get_month_year_display m y
        = Except.ok (m, y) := by
      simp [GregorianLikeCalendarMonthUtils.get_month_year_display, hm1, hm2]
    have hn : GregorianLikeCalendarMonthUtils.get_next_month m y
        = Except.ok (if m = 12 then (1, y + 1) else (m + 1, y)) := by
      by_cases h12 : m = 12 <;>
        simp [GregorianLikeCalendarMonthUtils.get_next_month, hm1, hm2, h12]
    have hmin : min mp rb = rb := min_eq_right hlt.le
    have hz : rb - min mp rb = 0 := by rw [hmin]; ring
    simp only [CalcFactory.loan_payments_loop, if_pos hrb, hd, hn, hz, hmin,
      zero_mul, add_zero, round2_zero]
    cases fuel with
    | zero =>
      simp [CalcFactory.loan_payments_loop, round2_zero]
    | succ f =>
      simp [CalcFactory.loan_payments_loop, round2_zero]
  · intro sb mp apr m y vb rows last hsb hmp hapr hok hlast
    obtain ⟨hm, hloop⟩ := calc_constant_ok_inversion sb mp apr m y vb rows false hok
    have hr : 0 ≤ apr / 12 / 100 := by positivity
    exact loan_payments_loop_last_zero CalcFactory.limit 0 m y mp sb
      (apr / 12 / 100) rows last hr hloop hlast

/-- Witness for C10: part (a) at a clamped step (balance 1, payment 2) with
five units of fuel left, part (b) on the schedule for balance 2, payment 1,
apr 0, whose last row is row 2. -/
theorem clamped_payment_is_final_and_zero_witness :
    ((1 : ℤ) ≤ 1 ∧ (1 : ℤ) ≤ 12 ∧ (0 : ℚ) < 1 ∧ (1 : ℚ) < 2
      ∧ CalcFactory.loan_payments_loop 6 0 1 2024 2 1 0
          = Except.ok ([⟨1, (1, 2024), round2 1, round2 1, 0, 0⟩], (5 == 0)))
    ∧ ((0 : ℚ) < 2 ∧ (0 : ℚ) < 1 ∧ (0 : ℚ) ≤ 0
      ∧ CalcFactory.calc_constant_monthly_loan_payments 2 1 0 1 2024 false
          = Except.ok ([⟨1, (1, 2024), 2, 1, 1, 1⟩, ⟨2, (2, 2024), 1, 1, 0, 0⟩], false)
      ∧ ([(⟨1, (1, 2024), 2, 1, 1, 1⟩ : RemainingMonthlyPayment),
          ⟨2, (2, 2024), 1, 1, 0, 0⟩] : List RemainingMonthlyPayment).getLast?
          = some ⟨2, (2, 2024), 1, 1, 0, 0⟩
      ∧ (⟨2, (2, 2024), 1, 1, 0, 0⟩ : RemainingMonthlyPayment).balance_after_payment = 0
      ∧ (⟨2, (2, 2024), 1, 1, 0, 0⟩
          : RemainingMonthlyPayment).balance_after_payment_plus_interest = 0) :=
  ⟨⟨by norm_num, by norm_num, by norm_num, by norm_num,
    clamped_payment_is_final_and_zero.1 5 0 1 2024 2 1 0
      (by norm_num) (by norm_num) (by norm_num) (by norm_num)⟩,
   ⟨by norm_num, by norm_num, by norm_num, by with_unfolding_all rfl, by rfl,
    clamped_payment_is_final_and_zero.2 2 1 0 1 2024 false
      [⟨1, (1, 2024), 2, 1, 1, 1⟩, ⟨2, (2, 2024), 1, 1, 0, 0⟩]
      ⟨2, (2, 2024), 1, 1, 0, 0⟩
      (by norm_num) (by norm_num) (by norm_num) (by with_unfolding_all rfl) (by rfl)⟩⟩
